import Mathlib

/-
Verification development for the deadline-cloud-for-shotgrid farm-creator
repository.  The remote resource-management service is modelled by an
oracle (`Env`) giving the outcome of each remote call; every run of the
embedded workflow returns its Python-level result together with the
ordered trace of remote calls (and sleeps) it performed.
-/

set_option maxRecDepth 4096

/-! ## Python dictionary values for the webhook listener (listener.py) -/

/-- Value stored in the parsed-parameters dictionary: a string, or (for the
`column_display_names` / `cols` keys) an accumulating list of strings. -/
inductive PyVal where
  | s (v : String)
  | l (vs : List String)
deriving DecidableEq, Repr

/-- Insertion-ordered Python dict with string keys, as an association list. -/
abbrev Dict := List (String × PyVal)

/-- Dict lookup (`d[k]` / `d.get(k)`): first entry with the key. -/
def dictGet : Dict → String → Option PyVal
  | [], _ => none
  | kv :: rest, k => if kv.1 == k then some kv.2 else dictGet rest k

/-- Membership test (`k in d`). -/
def dictContains (d : Dict) (k : String) : Bool :=
  (dictGet d k).isSome

/-- Item assignment (`d[k] = v`): overwrite in place, else append, keeping
insertion order as a Python dict does. -/
def dictSet : Dict → String → PyVal → Dict
  | [], k, v => [(k, v)]
  | kv :: rest, k, v =>
    if kv.1 == k then (k, v) :: rest else kv :: dictSet rest k v

/-- `v.append(x)` on a list-valued entry.  A string-valued entry is left
unchanged (unreachable: the two list keys are pre-initialized as lists and
never overwritten). -/
def pyListAppend : PyVal → String → PyVal
  | .l vs, v => .l (vs ++ [v])
  | .s s0, _ => .s s0

/-- `d[k].append(v)`.  A missing key is a no-op here (in Python it would be a
KeyError, unreachable because both list keys are pre-initialized). -/
def dictAppend : Dict → String → String → Dict
  | [], _, _ => []
  | kv :: rest, k, v =>
    if kv.1 == k then (kv.1, pyListAppend kv.2 v) :: rest
    else kv :: dictAppend rest k v

/-! ## Python string primitives (single-character separators only)

The source only ever splits on one-character separators, so the Python
`str.split`, `str.split(sep, 1)`, `str.replace` and `in` operations are
embedded as structurally recursive character-list functions. -/

/-- Python `s.split(sep)` for a one-character separator, over characters. -/
def pySplitChar (sep : Char) : List Char → List (List Char)
  | [] => [[]]
  | c :: rest =>
    if c = sep then [] :: pySplitChar sep rest
    else
      match pySplitChar sep rest with
      | [] => [[c]]
      | g :: gs => (c :: g) :: gs

/-- Characters before and after the first occurrence of a separator, when
the separator occurs. -/
def pyBreakChar (sep : Char) : List Char → Option (List Char × List Char)
  | [] => none
  | c :: rest =>
    if c = sep then some ([], rest)
    else
      match pyBreakChar sep rest with
      | none => none
      | some ab => some (c :: ab.1, ab.2)

/-- Python `s.split(sep)` for a one-character separator. -/
def pySplit (s : String) (sep : Char) : List String :=
  (pySplitChar sep s.data).map List.asString

/-- Python `s.split(sep, 1)` for a one-character separator. -/
def pySplitOnce (s : String) (sep : Char) : List String :=
  match pyBreakChar sep s.data with
  | none => [s]
  | some ab => [ab.1.asString, ab.2.asString]

/-- Python `s.replace(a, b)` for one-character arguments. -/
def pyReplaceChar (s : String) (a b : Char) : String :=
  (s.data.map (fun c => if c = a then b else c)).asString

/-- Python `c in s` for a one-character needle. -/
def pyContains (s : String) (c : Char) : Bool :=
  s.data.contains c

/-! ## urllib.parse.unquote (percent-decoding, UTF-8 with replacement) -/

/-- Value of a hexadecimal digit character. -/
def hexDigit (c : Char) : Option Nat :=
  if c.isDigit then some (c.toNat - 48)
  else if 'a' ≤ c ∧ c ≤ 'f' then some (c.toNat - 87)
  else if 'A' ≤ c ∧ c ≤ 'F' then some (c.toNat - 55)
  else none

/-- U+FFFD, the Unicode replacement character. -/
def replacementChar : Char := Char.ofNat 0xFFFD

/-- Whether a byte is a UTF-8 continuation byte (10xxxxxx). -/
def isCont (b : UInt8) : Bool := b &&& 0xC0 == 0x80

/-- A well-formed two-byte UTF-8 sequence. -/
abbrev utf8Valid2 (b b1 : UInt8) : Prop := 0xC2 ≤ b ∧ b ≤ 0xDF ∧ isCont b1 = true

/-- A well-formed three-byte UTF-8 sequence (no overlongs, no surrogates). -/
abbrev utf8Valid3 (b b1 b2 : UInt8) : Prop :=
  0xE0 ≤ b ∧ b ≤ 0xEF
  ∧ (if b = 0xE0 then 0xA0 ≤ b1 ∧ b1 ≤ 0xBF
     else if b = 0xED then 0x80 ≤ b1 ∧ b1 ≤ 0x9F
     else isCont b1 = true)
  ∧ isCont b2 = true

/-- A well-formed four-byte UTF-8 sequence (codepoints up to U+10FFFF). -/
abbrev utf8Valid4 (b b1 b2 b3 : UInt8) : Prop :=
  0xF0 ≤ b ∧ b ≤ 0xF4
  ∧ (if b = 0xF0 then 0x90 ≤ b1 ∧ b1 ≤ 0xBF
     else if b = 0xF4 then 0x80 ≤ b1 ∧ b1 ≤ 0x8F
     else isCont b1 = true)
  ∧ isCont b2 = true ∧ isCont b3 = true

/-- Codepoint of a two-byte UTF-8 sequence. -/
def utf8Char2 (b b1 : UInt8) : Char :=
  Char.ofNat ((b.toNat - 0xC0) * 64 + (b1.toNat - 0x80))

/-- Codepoint of a three-byte UTF-8 sequence. -/
def utf8Char3 (b b1 b2 : UInt8) : Char :=
  Char.ofNat ((b.toNat - 0xE0) * 4096 + (b1.toNat - 0x80) * 64 + (b2.toNat - 0x80))

/-- Codepoint of a four-byte UTF-8 sequence. -/
def utf8Char4 (b b1 b2 b3 : UInt8) : Char :=
  Char.ofNat ((b.toNat - 0xF0) * 262144 + (b1.toNat - 0x80) * 4096
    + (b2.toNat - 0x80) * 64 + (b3.toNat - 0x80))

/-- Fuelled UTF-8 decoder; each step consumes at least one byte, so fuel
equal to the byte count is always sufficient. -/
def utf8DecodeFuel : Nat → List UInt8 → List Char
  | 0, _ => []
  | _ + 1, [] => []
  | _ + 1, [b] => if b < 0x80 then [Char.ofNat b.toNat] else [replacementChar]
  | f + 1, [b, b1] =>
    if b < 0x80 then Char.ofNat b.toNat :: utf8DecodeFuel f [b1]
    else if utf8Valid2 b b1 then [utf8Char2 b b1]
    else replacementChar :: utf8DecodeFuel f [b1]
  | f + 1, [b, b1, b2] =>
    if b < 0x80 then Char.ofNat b.toNat :: utf8DecodeFuel f [b1, b2]
    else if utf8Valid2 b b1 then utf8Char2 b b1 :: utf8DecodeFuel f [b2]
    else if utf8Valid3 b b1 b2 then [utf8Char3 b b1 b2]
    else replacementChar :: utf8DecodeFuel f [b1, b2]
  | f + 1, b :: b1 :: b2 :: b3 :: rest =>
    if b < 0x80 then Char.ofNat b.toNat :: utf8DecodeFuel f (b1 :: b2 :: b3 :: rest)
    else if utf8Valid2 b b1 then utf8Char2 b b1 :: utf8DecodeFuel f (b2 :: b3 :: rest)
    else if utf8Valid3 b b1 b2 then utf8Char3 b b1 b2 :: utf8DecodeFuel f (b3 :: rest)
    else if utf8Valid4 b b1 b2 b3 then utf8Char4 b b1 b2 b3 :: utf8DecodeFuel f rest
    else replacementChar :: utf8DecodeFuel f (b1 :: b2 :: b3 :: rest)

/-- Decode a UTF-8 byte run, substituting U+FFFD for malformed units
(modelling `bytes.decode("utf-8", errors="replace")`). -/
def utf8Decode (l : List UInt8) : List Char :=
  utf8DecodeFuel l.length l

/-- Scanner for `unquote`: pending percent-decoded bytes are flushed (UTF-8
decoded) whenever a literal character or the end of input is reached. -/
def unquoteAux : List Char → List UInt8 → List Char
  | [], pending => utf8Decode pending
  | '%' :: h1 :: h2 :: rest, pending =>
    match hexDigit h1, hexDigit h2 with
    | some a, some b => unquoteAux rest (pending ++ [UInt8.ofNat (16 * a + b)])
    | _, _ => utf8Decode pending ++ ('%' :: unquoteAux (h1 :: h2 :: rest) [])
  | '%' :: rest, pending => utf8Decode pending ++ ('%' :: unquoteAux rest [])
  | c :: rest, pending => utf8Decode pending ++ (c :: unquoteAux rest [])

/-- `urllib.parse.unquote`: percent-escapes become bytes; maximal byte runs
are UTF-8 decoded with replacement; invalid escapes stay literal. -/
def unquote (s : String) : String :=
  (unquoteAux s.data []).asString

/-! ## listener._parse_url -/

/-- Query component of `urllib.parse.urlsplit(url)`: the part after the
first `?` of the part before the first `#`. -/
def urlsplitQuery (url : String) : String :=
  let beforeFrag := match pyBreakChar '#' url.data with
    | none => url.data
    | some ab => ab.1
  match pyBreakChar '?' beforeFrag with
  | none => ""
  | some ab => ab.2.asString

/-- One `key=value` pair: `key, value = map(unquote, param.split("=", 1))`;
`none` models the ValueError raised when the pair has no `=`. -/
def splitPair (p : String) : Option (String × String) :=
  match pySplitOnce p '=' with
  | [k, v] => some (unquote k, unquote v)
  | _ => none

/-- The parameters dict as pre-initialized by `_parse_url`. -/
def initParams : Dict :=
  [("column_display_names", PyVal.l []), ("cols", PyVal.l [])]

/-- The key/value loop of `_parse_url`: list keys accumulate, other keys
overwrite; a pair without `=` raises (models the unpack ValueError). -/
def parsePairs : List String → Dict → Except String Dict
  | [], params => .ok params
  | p :: rest, params =>
    match splitPair p with
    | some (key, value) =>
      if key == "column_display_names" || key == "cols" then
        parsePairs rest (dictAppend params key value)
      else
        parsePairs rest (dictSet params key (.s value))
    | none => .error "ValueError: not enough values to unpack"

/-- `listener._parse_url`: raises (Except.error) when the url has no `?`;
otherwise parses the query pairs. -/
def parse_url (url : String) : Except String Dict :=
  if pyContains url '?' = false then
    .error "ValueError: No parameters given"
  else
    let q := ((pySplitChar '?' (urlsplitQuery url).data).getLastD []).asString
    let params_raw := pySplit q '&'
    parsePairs params_raw initParams

/-! ## Remote-call oracle and event trace (creator.py / deadline_cloud_util.py) -/

/-- Outcome of one remote call as the creator sees it: the call raised, or
it returned a value (`returned none` models a `None` or falsy return). -/
inductive CallOutcome (α : Type) where
  | raised
  | returned (v : Option α)
deriving DecidableEq

/-- Caller identity returned by STS: the `Account` field, when present. -/
structure CallerIdentity where
  account : Option String
deriving DecidableEq, Repr

/-- Outcome of `get_role`: the source treats `NoSuchEntityException`
silently, logs other exceptions, and otherwise keeps the returned role. -/
inductive GetRoleOutcome where
  | raised_no_such_entity
  | raised_other
  | returned (r : Option String)
deriving DecidableEq, Repr

/-- The role variable after the lookup block of `create_farm_and_fleet`:
`None` unless `get_role` returned a (truthy) role. -/
def lookupRole : GetRoleOutcome → Option String
  | .returned (some r) => some r
  | _ => none

/-- The `Condition` injected into an `sts:AssumeRole` statement:
`{"StringEquals": {"aws:SourceAccount": account},
  "ArnEquals": {"aws:SourceArn": arn}}`. -/
structure Condition where
  sourceAccount : String
  sourceArn : String
deriving DecidableEq, Repr

/-- A trust-policy statement: its `Action` key (absent key models the
KeyError path) and its `Condition`. -/
structure Statement where
  action : Option String
  condition : Option Condition := none
deriving DecidableEq, Repr

/-- The trust-policy document: its `Statement` key, when present. -/
structure PolicyDoc where
  statement : Option (List Statement)
deriving DecidableEq, Repr

/-- Rollback-tracking dict (`progress` in the source): a field is `some`
exactly when the corresponding key has been recorded. -/
structure Progress where
  farm_id : Option String := none
  queue_id : Option String := none
  role_name : Option String := none
  role_policy : Option (String × String) := none
deriving DecidableEq, Repr

/-- Result of a run of `create_farm_and_fleet`: the returned progress dict,
a returned `{"error": msg}` dict, or an uncaught exception. -/
inductive RunResult where
  | ok (progress : Progress)
  | error (msg : String)
  | raised (msg : String)
deriving DecidableEq, Repr

/-- One observable side effect: a remote call, or a `time.sleep`. -/
inductive Event where
  | getCallerIdentity
  | createFarm
  | createQueue
  | getQueue
  | getRole
  | createRole
  | putRolePolicy
  | createFleet
  | createQueueFleetAssociation
  | deleteRolePolicy
  | deleteRole
  | deleteQueue
  | deleteFarm
  | sleep (seconds : Nat)
deriving DecidableEq, Repr

/-- Whether an event is one of the four clean-up deletions. -/
def isDeleteEvent : Event → Bool
  | .deleteRolePolicy => true
  | .deleteRole => true
  | .deleteQueue => true
  | .deleteFarm => true
  | _ => false

/-- Whether an event is a `create_fleet` attempt. -/
def isCreateFleetEvent : Event → Bool
  | .createFleet => true
  | _ => false

/-- Oracle for the outcomes of all remote calls a run may make.  Calls made
inside retry loops are indexed by attempt number.  The two policy-document
fields and the fleet-configuration field model the local JSON file loads
(`none` = unreadable or not parseable as JSON). -/
structure Env where
  get_caller_identity : CallOutcome CallerIdentity
  create_farm : CallOutcome String
  create_queue : CallOutcome String
  get_queue : Nat → CallOutcome String
  fleet_role_doc : Option PolicyDoc
  get_role : GetRoleOutcome
  create_role : CallOutcome String
  worker_permissions_doc : Option String
  fleet_configuration_doc : Option String
  put_role_policy : CallOutcome Bool
  create_fleet : Nat → CallOutcome String
  create_queue_fleet_association : CallOutcome Bool
  delete_role_policy : CallOutcome Bool
  delete_role : CallOutcome Bool
  delete_queue : CallOutcome Bool
  delete_farm : CallOutcome Bool

/-! ## creator.py -/

/-- `FLEET_CONFIGURATION_PATH` constant. -/
def FLEET_CONFIGURATION_PATH : String := "configuration/cmf_default.json"

/-- `ROLE_CHANGE_WAIT_SECONDS` constant. -/
def ROLE_CHANGE_WAIT_SECONDS : Nat := 6

/-- The `Condition` built at lines 235-238 of creator.py for the given
account, region (studio-ID prefix) and farm ID. -/
def mkAssumeRoleCondition (account region_id farm_id : String) : Condition :=
  { sourceAccount := account
    sourceArn := "arn:aws:deadline:" ++ region_id ++ ":" ++ account ++ ":farm/" ++ farm_id }

/-- The statement loop of lines 232-243: each statement whose `Action` is
`sts:AssumeRole` gets the injected `Condition`; a statement without an
`Action` key raises KeyError, caught and turned into an error return. -/
def updateStatements (cond : Condition) : List Statement → Except Unit (List Statement)
  | [] => .ok []
  | s :: rest =>
    match s.action with
    | none => .error ()
    | some a =>
      let s2 := if a = "sts:AssumeRole" then { s with condition := some cond } else s
      match updateStatements cond rest with
      | .ok out => .ok (s2 :: out)
      | .error e => .error e

/-- The `queue_result` of one `get_queue` attempt: `none` when the call
raised or returned a falsy value. -/
def queueAttemptId (e : Env) (i : Nat) : Option String :=
  match e.get_queue i with
  | .returned (some q) => some q
  | _ => none

/-- The queue-availability polling loop (lines 187-205): up to `remaining`
attempts, stopping at the first truthy `get_queue` result. -/
def queuePollLoop (e : Env) (attempt remaining : Nat) : Option String × List Event :=
  match remaining with
  | 0 => (none, [])
  | r + 1 =>
    match queueAttemptId e attempt with
    | some q => (some q, [Event.getQueue])
    | none =>
      let rec2 := queuePollLoop e (attempt + 1) r
      (rec2.1, Event.getQueue :: rec2.2)

/-- The `fleet_id` of one `create_fleet` attempt: `none` when the call
raised or returned a falsy value. -/
def fleetAttemptId (e : Env) (i : Nat) : Option String :=
  match e.create_fleet i with
  | .returned (some fid) => some fid
  | _ => none

/-- The fleet-creation retry loop (lines 339-363): before every attempt a
fixed `ROLE_CHANGE_WAIT_SECONDS` sleep; stops at the first fleet ID. -/
def fleetLoop (e : Env) (attempt remaining : Nat) : Option String × List Event :=
  match remaining with
  | 0 => (none, [])
  | r + 1 =>
    let evs := [Event.sleep ROLE_CHANGE_WAIT_SECONDS, Event.createFleet]
    match fleetAttemptId e attempt with
    | some fleet_id => (some fleet_id, evs)
    | none =>
      let rec2 := fleetLoop e (attempt + 1) r
      (rec2.1, evs ++ rec2.2)

/-- The deletions `clean_up` attempts for a given progress record: inline
role policy, role, queue, farm, in that order, each present key only.  The
queue deletion reads `resources["farm_id"]` first, so a missing farm key
raises KeyError inside the try and no remote call is made. -/
def clean_up_events (r : Progress) : List Event :=
  (match r.role_policy with | some _ => [Event.deleteRolePolicy] | none => [])
  ++ (match r.role_name with | some _ => [Event.deleteRole] | none => [])
  ++ (match r.queue_id, r.farm_id with
      | some _, some _ => [Event.deleteQueue]
      | _, _ => [])
  ++ (match r.farm_id with | some _ => [Event.deleteFarm] | none => [])

/-- `creator.clean_up`: best-effort deletion of recorded resources.  Each
deletion is wrapped in its own try/except, so a raised deletion records no
`cleaned` entry but never prevents the later deletions. -/
def clean_up (e : Env) (resources : Progress) : List (String × Option Bool) × List Event :=
  let c1 := match resources.role_policy, e.delete_role_policy with
    | some _, .returned v => [("delete_role_policy", v)]
    | _, _ => []
  let c2 := match resources.role_name, e.delete_role with
    | some _, .returned v => [("role_name", v)]
    | _, _ => []
  let c3 := match resources.queue_id, resources.farm_id, e.delete_queue with
    | some _, some _, .returned v => [("delete_queue", v)]
    | _, _, _ => []
  let c4 := match resources.farm_id, e.delete_farm with
    | some _, .returned v => [("delete_farm", v)]
    | _, _ => []
  (c1 ++ c2 ++ c3 ++ c4, clean_up_events resources)

/-- Truthiness of a returned-or-raised boolean result, as tested by
`if not result:` in the source (a raised call leaves the variable None). -/
def callTruthy : CallOutcome Bool → Bool
  | .returned (some true) => true
  | _ => false

/-- Lines 324-392: load the fleet configuration, run the fleet-creation
retry loop, then create the queue-fleet association; any failure cleans up
and returns an error. -/
def fleetAndAssociate (e : Env) (progress : Progress)
    (name_fleet farm_id queue_id fleet_role_arn fleet_configuration_path : String) :
    RunResult × List Event :=
  match e.fleet_configuration_doc with
  | none =>
    (.error ("Couldn\x27t get fleet configuration document: " ++ fleet_configuration_path),
     (clean_up e progress).2)
  | some _cfg =>
    let fevs := (fleetLoop e 0 3).2
    match (fleetLoop e 0 3).1 with
    | none =>
      (.error ("Fleet creation failed after 3 retries. Please check fleet role: "
          ++ fleet_role_arn), fevs ++ (clean_up e progress).2)
    | some _fleet_id =>
      if callTruthy e.create_queue_fleet_association then
        (.ok progress, fevs ++ [Event.createQueueFleetAssociation])
      else
        (.error "Fleet queue association failed",
         fevs ++ [Event.createQueueFleetAssociation] ++ (clean_up e progress).2)

/-- Lines 286-321: load the WorkerPermissions document and attach it as an
inline policy.  `progress["role_policy"]` is recorded whenever the call
returns (even falsy); a raised call records nothing. -/
def rolePolicyStage (e : Env) (progress : Progress)
    (role_name_fleet name_fleet farm_id queue_id fleet_role_arn fleet_configuration_path :
      String) : RunResult × List Event :=
  match e.worker_permissions_doc with
  | none =>
    (.error "Couldn\x27t get WorkerPermissions policy document: policy/iam_fleet_worker_permissions.json",
     (clean_up e progress).2)
  | some _pd =>
    match e.put_role_policy with
    | .raised =>
      (.error "Fleet role creation failed", Event.putRolePolicy :: (clean_up e progress).2)
    | .returned v =>
      let progress2 := { progress with role_policy := some (role_name_fleet, "WorkerPermissions") }
      if v = some true then
        let re := fleetAndAssociate e progress2 name_fleet farm_id queue_id
          fleet_role_arn fleet_configuration_path
        (re.1, Event.putRolePolicy :: re.2)
      else
        (.error "Fleet role creation failed", Event.putRolePolicy :: (clean_up e progress2).2)

/-- Lines 253-283: look up the derived role; an existing role is only a
warning and is not recorded for rollback; otherwise create it, recording
`progress["role_name"]` whenever `create_role` returns without raising. -/
def roleStage (e : Env) (progress : Progress)
    (role_name_fleet name_fleet farm_id queue_id fleet_role_arn fleet_configuration_path :
      String) (_pd_fleet_role : List Statement) : RunResult × List Event :=
  match lookupRole e.get_role with
  | some _r =>
    let re := rolePolicyStage e progress role_name_fleet name_fleet farm_id
      queue_id fleet_role_arn fleet_configuration_path
    (re.1, Event.getRole :: re.2)
  | none =>
    match e.create_role with
    | .raised =>
      (.error "Fleet role creation failed",
       Event.getRole :: Event.createRole :: (clean_up e progress).2)
    | .returned none =>
      let progress2 := { progress with role_name := some role_name_fleet }
      (.error "Fleet role creation failed",
       Event.getRole :: Event.createRole :: (clean_up e progress2).2)
    | .returned (some _role) =>
      let progress2 := { progress with role_name := some role_name_fleet }
      let re := rolePolicyStage e progress2 role_name_fleet name_fleet farm_id
        queue_id fleet_role_arn fleet_configuration_path
      (re.1, Event.getRole :: Event.createRole :: re.2)

/-- Lines 214-250: load the trust-policy template, derive the region from
the studio ID (an unset studio ID raises AttributeError, uncaught), and
inject the `sts:AssumeRole` condition into every statement. -/
def policyDocStage (e : Env) (progress : Progress) (studio_id : Option String)
    (account farm_id role_name_fleet name_fleet queue_id fleet_role_arn
      fleet_configuration_path : String) : RunResult × List Event :=
  match e.fleet_role_doc with
  | none =>
    (.error "Couldn\x27t get fleet role policy document: policy/iam_fleet_role.json",
     (clean_up e progress).2)
  | some pd =>
    match studio_id with
    | none => (.raised "AttributeError: NoneType has no attribute split", [])
    | some sid =>
      let region_id := (pySplit sid ':').headD ""
      match pd.statement with
      | some (s0 :: srest) =>
        match updateStatements (mkAssumeRoleCondition account region_id farm_id) (s0 :: srest) with
        | .error _ =>
          (.error "Couldn\x27t set sts:AssumeRole condition", (clean_up e progress).2)
        | .ok updated =>
          roleStage e progress role_name_fleet name_fleet farm_id queue_id fleet_role_arn
            fleet_configuration_path updated
      | _ =>
        (.error "Statement not found in fleet role dictionary", (clean_up e progress).2)

/-- Lines 165-211: create the queue and poll for its availability.  When no
polling attempt stores `progress["queue_id"]`, the truthiness check at line
207 raises KeyError before any clean-up. -/
def queueStage (e : Env) (progress : Progress) (studio_id : Option String)
    (account farm_id name_queue name_fleet role_name_fleet fleet_role_arn
      fleet_configuration_path : String) : RunResult × List Event :=
  match e.create_queue with
  | .returned (some queue_id) =>
    let qevs := (queuePollLoop e 0 3).2
    match (queuePollLoop e 0 3).1 with
    | none =>
      (.raised "KeyError: queue_id", Event.createQueue :: qevs)
    | some q =>
      let progress2 := { progress with queue_id := some q }
      let re := policyDocStage e progress2 studio_id account farm_id
        role_name_fleet name_fleet queue_id fleet_role_arn fleet_configuration_path
      (re.1, Event.createQueue :: (qevs ++ re.2))
  | _ =>
    (.error "Queue creation failed", Event.createQueue :: (clean_up e progress).2)

/-- `creator.create_farm_and_fleet`: input validation, caller-identity
resolution, farm creation, then the later stages.  The second component is
the ordered trace of remote calls and sleeps the run performed. -/
def create_farm_and_fleet (e : Env) (studio_id name_farm name_queue name_fleet : Option String)
    (fleet_configuration_path : String) : RunResult × List Event :=
  match name_farm, name_queue, name_fleet with
  | none, _, _ => (.error "No farm name specified", [])
  | some _, none, _ => (.error "No queue name specified", [])
  | some _, some _, none => (.error "No fleet name specified", [])
  | some nf, some nq, some nl =>
    let role_name_fleet := (pyReplaceChar nf ' ' '_') ++ "FleetRole"
    match e.get_caller_identity with
    | .returned (some ci) =>
      match ci.account with
      | none => (.error "Get caller identity failed", [Event.getCallerIdentity])
      | some account =>
        let fleet_role_arn := "arn:aws:iam::" ++ account ++ ":role/" ++ role_name_fleet
        match e.create_farm with
        | .raised =>
          (.error "Traceback: create_farm raised",
           [Event.getCallerIdentity, Event.createFarm])
        | .returned none =>
          (.error "Farm creation failed", [Event.getCallerIdentity, Event.createFarm])
        | .returned (some farm_id) =>
          let progress : Progress := { farm_id := some farm_id }
          let re := queueStage e progress studio_id account farm_id nq nl
            role_name_fleet fleet_role_arn fleet_configuration_path
          (re.1, Event.getCallerIdentity :: Event.createFarm :: re.2)
    | _ => (.error "Get caller identity failed", [Event.getCallerIdentity])

/-! ## listener.py webhook handler -/

/-- HTTP method of the inbound request (the route accepts GET and POST). -/
inductive Method where
  | GET
  | POST
deriving DecidableEq, Repr

/-- What the handler sends back: a plain body, or a redirect. -/
inductive HttpResult where
  | body (s : String)
  | redirect (url : String)
deriving DecidableEq, Repr

/-- The settings document fields the handler reads. -/
structure Settings where
  studio_id : String
  max_worker_count : Int

/-- Record of one invocation of the provisioning workflow: the arguments
the handler passed. -/
structure WorkflowCall where
  studio_id : Option String
  name_farm : Option String
  name_queue : Option String
  name_fleet : Option String
  fleet_configuration_path : String
  max_worker_count : Int
deriving DecidableEq, Repr

/-- Python str() interpolation of a parameter value into an f-string. -/
def PyVal.fstr : PyVal → String
  | .s v => v
  | .l vs => "[" ++ String.intercalate ", " vs ++ "]"

/-- The parameter dict the handler obtains: form fields for POST, the
manually parsed query for GET. -/
def paramsOf (method : Method) (url : String) (form : List (String × String)) :
    Except String Dict :=
  match method with
  | .POST => .ok (form.map (fun kv => (kv.1, PyVal.s kv.2)))
  | .GET => parse_url url

/-- `listener.farm_creator`: maps request parameters to workflow arguments
and runs the workflow.  The second component records the arguments of the
workflow invocation, `none` when the workflow was never invoked. -/
def farm_creator (settings : Settings) (e : Env) (method : Method) (url : String)
    (form : List (String × String)) : HttpResult × Option WorkflowCall :=
  match paramsOf method url form with
  | .error tb => (.body tb, none)
  | .ok params =>
    if params.isEmpty then
      (.body "Error: No parameters could be parsed.", none)
    else if dictContains params "project_name" = false then
      (.body "Error: Please run this Action Menu Item from the Project Actions menu of a Project page.",
       none)
    else
      match dictGet params "server_hostname" with
      | none => (.body "Traceback: KeyError server_hostname", none)
      | some sh =>
        let project_name := ((dictGet params "project_name").getD (PyVal.s "")).fstr
        let _hostname := (pySplitOnce sh.fstr '.').headD ""
        let name_farm := project_name
        let name_queue := project_name ++ " Queue"
        let name_fleet := project_name ++ " Fleet"
        let wc : WorkflowCall :=
          { studio_id := some settings.studio_id
            name_farm := some name_farm
            name_queue := some name_queue
            name_fleet := some name_fleet
            fleet_configuration_path := FLEET_CONFIGURATION_PATH
            max_worker_count := settings.max_worker_count }
        let res := (create_farm_and_fleet e (some settings.studio_id)
          (some name_farm) (some name_queue) (some name_fleet) FLEET_CONFIGURATION_PATH).1
        let response : HttpResult :=
          match res with
          | .raised tb => .body tb
          | .error msg => .body ("Error: " ++ msg)
          | .ok prog =>
            match prog.farm_id with
            | none => .body "Traceback: KeyError farm_id"
            | some fid =>
              let region_id := (pySplit settings.studio_id ':').headD ""
              .redirect ("https://" ++ region_id
                ++ ".console.aws.amazon.com/deadlinecloud/home?region=" ++ region_id
                ++ "#/farms/" ++ fid)
        (response, some wc)

/-! ## Concrete oracles (used by witnesses and counterexample evaluations) -/

/-- An oracle on which every remote call succeeds. -/
def envOk : Env :=
  { get_caller_identity := .returned (some { account := some "123456789012" })
    create_farm := .returned (some "farm-1")
    create_queue := .returned (some "queue-1")
    get_queue := fun _ => .returned (some "queue-1")
    fleet_role_doc := some { statement := some [{ action := some "sts:AssumeRole" }] }
    get_role := .raised_no_such_entity
    create_role := .returned (some "role-1")
    worker_permissions_doc := some "wp"
    fleet_configuration_doc := some "cfg"
    put_role_policy := .returned (some true)
    create_fleet := fun _ => .returned (some "fleet-1")
    create_queue_fleet_association := .returned (some true)
    delete_role_policy := .returned (some true)
    delete_role := .returned (some true)
    delete_queue := .returned (some true)
    delete_farm := .returned (some true) }

/-- Oracle on which every `get_queue` poll returns nothing. -/
def envQueueUnavailable : Env := { envOk with get_queue := fun _ => .returned none }

/-- Oracle on which every `create_fleet` attempt returns nothing. -/
def envFleetFails : Env := { envOk with create_fleet := fun _ => .returned none }

/-- Oracle on which `create_queue` raises. -/
def envQueueFails : Env := { envOk with create_queue := .raised }

/-- Oracle on which the derived fleet role already exists. -/
def envRoleExists : Env := { envOk with get_role := .returned (some "existing-role") }

/-! ## Trace-shape lemmas -/

theorem clean_up_snd (e : Env) (p : Progress) :
    (clean_up e p).2 = clean_up_events p := rfl

theorem clean_up_events_delete (p : Progress) :
    ∀ ev ∈ clean_up_events p, isDeleteEvent ev = true := by
  rcases p with ⟨f, q, rn, rp⟩
  cases f <;> cases q <;> cases rn <;> cases rp <;>
    simp [clean_up_events, isDeleteEvent]

theorem clean_up_events_no_deleteRole (p : Progress) (h : p.role_name = none) :
    Event.deleteRole ∉ clean_up_events p := by
  rcases p with ⟨f, q, rn, rp⟩
  cases rn with
  | none => cases f <;> cases q <;> cases rp <;> simp [clean_up_events]
  | some _ => exact absurd h (by simp)

theorem clean_up_events_no_createRole (p : Progress) :
    Event.createRole ∉ clean_up_events p := by
  intro hmem
  have := clean_up_events_delete p Event.createRole hmem
  simp [isDeleteEvent] at this

theorem queuePollLoop_mem (e : Env) (r : Nat) :
    ∀ (a : Nat) (ev : Event), ev ∈ (queuePollLoop e a r).2 → ev = Event.getQueue := by
  induction r with
  | zero => intro a ev h; simp [queuePollLoop] at h
  | succ n ih =>
    intro a ev h
    cases hq : queueAttemptId e a <;> simp [queuePollLoop, hq] at h
    · rcases h with h | h
      · exact h
      · exact ih (a + 1) ev h
    · exact h

theorem queuePollLoop_filter (e : Env) (r : Nat) :
    ∀ a : Nat, ((queuePollLoop e a r).2).filter isDeleteEvent = [] := by
  induction r with
  | zero => intro a; simp [queuePollLoop]
  | succ n ih =>
    intro a
    cases hq : queueAttemptId e a <;>
      simp [queuePollLoop, hq, isDeleteEvent, ih (a + 1)]

theorem fleetLoop_mem (e : Env) (r : Nat) :
    ∀ (a : Nat) (ev : Event), ev ∈ (fleetLoop e a r).2 →
      ev = Event.sleep ROLE_CHANGE_WAIT_SECONDS ∨ ev = Event.createFleet := by
  induction r with
  | zero => intro a ev h; simp [fleetLoop] at h
  | succ n ih =>
    intro a ev h
    cases hf : fleetAttemptId e a <;> simp [fleetLoop, hf] at h
    · rcases h with h | h | h
      · exact Or.inl h
      · exact Or.inr h
      · exact ih (a + 1) ev h
    · rcases h with h | h
      · exact Or.inl h
      · exact Or.inr h

theorem fleetLoop_filter (e : Env) (r : Nat) :
    ∀ a : Nat, ((fleetLoop e a r).2).filter isDeleteEvent = [] := by
  induction r with
  | zero => intro a; simp [fleetLoop]
  | succ n ih =>
    intro a
    cases hf : fleetAttemptId e a <;>
      simp [fleetLoop, hf, isDeleteEvent, ih (a + 1)]

theorem fleetAndAssociate_mem (e : Env) (p : Progress) (nl fid qid arn path : String) :
    ∀ ev ∈ (fleetAndAssociate e p nl fid qid arn path).2,
      ev = Event.sleep ROLE_CHANGE_WAIT_SECONDS ∨ ev = Event.createFleet
      ∨ ev = Event.createQueueFleetAssociation ∨ ev ∈ clean_up_events p := by
  intro ev hmem
  unfold fleetAndAssociate at hmem
  rcases hc : e.fleet_configuration_doc with _ | cfg <;> rw [hc] at hmem <;> (try dsimp only at hmem)
  · exact Or.inr (Or.inr (Or.inr (by rwa [clean_up_snd] at hmem)))
  · rcases hf : (fleetLoop e 0 3).1 with _ | fl <;> rw [hf] at hmem <;> (try dsimp only at hmem)
    · rw [clean_up_snd] at hmem
      rcases List.mem_append.mp hmem with h | h
      · rcases fleetLoop_mem e 3 0 _ h with h | h
        · exact Or.inl h
        · exact Or.inr (Or.inl h)
      · exact Or.inr (Or.inr (Or.inr h))
    · cases ha : callTruthy e.create_queue_fleet_association <;> rw [ha] at hmem <;>
        (try dsimp only at hmem)
      · rw [clean_up_snd] at hmem
        rcases List.mem_append.mp hmem with h | h
        · rcases List.mem_append.mp h with h2 | h2
          · rcases fleetLoop_mem e 3 0 _ h2 with h3 | h3
            · exact Or.inl h3
            · exact Or.inr (Or.inl h3)
          · exact Or.inr (Or.inr (Or.inl (by simpa using h2)))
        · exact Or.inr (Or.inr (Or.inr h))
      · rcases List.mem_append.mp hmem with h | h
        · rcases fleetLoop_mem e 3 0 _ h with h2 | h2
          · exact Or.inl h2
          · exact Or.inr (Or.inl h2)
        · exact Or.inr (Or.inr (Or.inl (by simpa using h)))

theorem rolePolicyStage_mem (e : Env) (p : Progress) (rn nl fid qid arn path : String) :
    ∀ ev ∈ (rolePolicyStage e p rn nl fid qid arn path).2,
      ev = Event.putRolePolicy
      ∨ ev = Event.sleep ROLE_CHANGE_WAIT_SECONDS
      ∨ ev = Event.createFleet
      ∨ ev = Event.createQueueFleetAssociation
      ∨ ev ∈ clean_up_events p
      ∨ ev ∈ clean_up_events { p with role_policy := some (rn, "WorkerPermissions") } := by
  intro ev hmem
  unfold rolePolicyStage at hmem
  rcases hw : e.worker_permissions_doc with _ | wpd <;> rw [hw] at hmem <;> (try dsimp only at hmem)
  · exact Or.inr (Or.inr (Or.inr (Or.inr (Or.inl (by rwa [clean_up_snd] at hmem)))))
  · rcases hp : e.put_role_policy with _ | v <;> rw [hp] at hmem <;> (try dsimp only at hmem)
    · rcases List.mem_cons.mp hmem with h | h
      · exact Or.inl h
      · exact Or.inr (Or.inr (Or.inr (Or.inr (Or.inl (by rwa [clean_up_snd] at h)))))
    · by_cases hv : v = some true
      · rw [if_pos hv] at hmem
        dsimp only at hmem
        rcases List.mem_cons.mp hmem with h | h
        · exact Or.inl h
        · rcases fleetAndAssociate_mem e _ nl fid qid arn path ev h with h2 | h2 | h2 | h2
          · exact Or.inr (Or.inl h2)
          · exact Or.inr (Or.inr (Or.inl h2))
          · exact Or.inr (Or.inr (Or.inr (Or.inl h2)))
          · exact Or.inr (Or.inr (Or.inr (Or.inr (Or.inr h2))))
      · rw [if_neg hv] at hmem
        rcases List.mem_cons.mp hmem with h | h
        · exact Or.inl h
        · exact Or.inr (Or.inr (Or.inr (Or.inr (Or.inr (by rwa [clean_up_snd] at h)))))

theorem rolePolicyStage_no_createRole (e : Env) (p : Progress)
    (rn nl fid qid arn path : String) :
    Event.createRole ∉ (rolePolicyStage e p rn nl fid qid arn path).2 := by
  intro hmem
  rcases rolePolicyStage_mem e p rn nl fid qid arn path _ hmem with h | h | h | h | h | h
  · simp at h
  · simp at h
  · simp at h
  · simp at h
  · simpa [isDeleteEvent] using clean_up_events_delete p _ h
  · simpa [isDeleteEvent] using clean_up_events_delete _ _ h

theorem rolePolicyStage_no_deleteRole (e : Env) (p : Progress)
    (rn nl fid qid arn path : String) (hrn : p.role_name = none) :
    Event.deleteRole ∉ (rolePolicyStage e p rn nl fid qid arn path).2 := by
  intro hmem
  rcases rolePolicyStage_mem e p rn nl fid qid arn path _ hmem with h | h | h | h | h | h
  · simp at h
  · simp at h
  · simp at h
  · simp at h
  · exact clean_up_events_no_deleteRole p hrn h
  · exact clean_up_events_no_deleteRole
      { p with role_policy := some (rn, "WorkerPermissions") } hrn h

theorem fleetAndAssociate_fst_ok (e : Env) (p : Progress) (nl fid qid arn path : String)
    (prog : Progress) (h : (fleetAndAssociate e p nl fid qid arn path).1 = .ok prog) :
    prog = p := by
  unfold fleetAndAssociate at h
  rcases hc : e.fleet_configuration_doc with _ | cfg <;> rw [hc] at h <;> (try dsimp only at h)
  · simp at h
  · rcases hf : (fleetLoop e 0 3).1 with _ | fl <;> rw [hf] at h <;> (try dsimp only at h)
    · simp at h
    · cases ha : callTruthy e.create_queue_fleet_association <;> rw [ha] at h <;>
        (try dsimp only at h)
      · simp at h
      · injection h with h2
        exact h2.symm

theorem rolePolicyStage_fst_ok (e : Env) (p : Progress) (rn nl fid qid arn path : String)
    (prog : Progress) (h : (rolePolicyStage e p rn nl fid qid arn path).1 = .ok prog) :
    prog.role_name = p.role_name := by
  unfold rolePolicyStage at h
  rcases hw : e.worker_permissions_doc with _ | wpd <;> rw [hw] at h <;> (try dsimp only at h)
  · simp at h
  · rcases hp : e.put_role_policy with _ | v <;> rw [hp] at h <;> (try dsimp only at h)
    · simp at h
    · by_cases hv : v = some true
      · rw [if_pos hv] at h
        dsimp only at h
        rw [fleetAndAssociate_fst_ok e _ nl fid qid arn path prog h]
      · rw [if_neg hv] at h
        simp at h

/-! ## Fleet retry-loop characterization -/

/-- Event pattern of k fleet-creation attempts: the fixed sleep comes
before every attempt, including the first. -/
def attemptBlocks : Nat → List Event
  | 0 => []
  | n + 1 => Event.sleep ROLE_CHANGE_WAIT_SECONDS :: Event.createFleet :: attemptBlocks n

theorem attemptBlocks_count (k : Nat) :
    ((attemptBlocks k).filter isCreateFleetEvent).length = k := by
  induction k with
  | zero => rfl
  | succ n ih => simp [attemptBlocks, isCreateFleetEvent, ih]

theorem fleetLoop_shape (e : Env) (r : Nat) :
    ∀ a : Nat, ∃ k, k ≤ r ∧ (fleetLoop e a r).2 = attemptBlocks k
      ∧ ((fleetLoop e a r).1 = none → k = r) := by
  induction r with
  | zero => intro a; exact ⟨0, le_rfl, rfl, fun _ => rfl⟩
  | succ n ih =>
    intro a
    cases hf : fleetAttemptId e a with
    | some fid =>
      exact ⟨1, by omega, by simp [fleetLoop, hf, attemptBlocks], by simp [fleetLoop, hf]⟩
    | none =>
      obtain ⟨k, hk, hev, hnone⟩ := ih (a + 1)
      refine ⟨k + 1, by omega, ?_, ?_⟩
      · simp [fleetLoop, hf, attemptBlocks, hev]
      · intro h1
        have := hnone (by simpa [fleetLoop, hf] using h1)
        omega

theorem fleetLoop_all_fail (e : Env) (r : Nat) :
    ∀ a : Nat, (∀ i, i < r → fleetAttemptId e (a + i) = none) →
      fleetLoop e a r = (none, attemptBlocks r) := by
  induction r with
  | zero => intro a _; rfl
  | succ n ih =>
    intro a hall
    have h0 : fleetAttemptId e a = none := by simpa using hall 0 (by omega)
    have hrec := ih (a + 1) (fun i hi => by
      have := hall (i + 1) (by omega)
      rw [show a + (i + 1) = a + 1 + i by omega] at this
      exact this)
    simp [fleetLoop, h0, hrec, attemptBlocks]

theorem fleetLoop_stops (e : Env) :
    ∀ (i r a : Nat) (fid : String), i < r →
      (∀ j, j < i → fleetAttemptId e (a + j) = none) →
      fleetAttemptId e (a + i) = some fid →
      fleetLoop e a r = (some fid, attemptBlocks (i + 1)) := by
  intro i
  induction i with
  | zero =>
    intro r a fid hir _ hsucc
    cases r with
    | zero => omega
    | succ n =>
      rw [show a + 0 = a by omega] at hsucc
      simp [fleetLoop, hsucc, attemptBlocks]
  | succ m ih =>
    intro r a fid hir hfail hsucc
    cases r with
    | zero => omega
    | succ n =>
      have h0 : fleetAttemptId e a = none := by simpa using hfail 0 (by omega)
      have hrec := ih n (a + 1) fid (by omega)
        (fun j hj => by
          have := hfail (j + 1) (by omega)
          rw [show a + (j + 1) = a + 1 + j by omega] at this
          exact this)
        (by rw [show a + 1 + m = a + (m + 1) by omega]; exact hsucc)
      simp [fleetLoop, h0, hrec, attemptBlocks]

/-! ## Query-pair parsing characterization -/

/-- Decoded key/value pairs of a raw query-pair list: `none` when some pair
has no `=` (the parse then raises on unpacking). -/
def decodedPairsOf : List String → Option (List (String × String))
  | [] => some []
  | p :: rest =>
    match splitPair p, decodedPairsOf rest with
    | some kv, some l => some (kv :: l)
    | _, _ => none

/-- Decoded values carried by a given key, in occurrence order. -/
def valsFor (l : List (String × String)) (k : String) : List String :=
  (l.filter (fun q => q.1 == k)).map (fun q => q.2)

theorem dictGet_dictSet (d : Dict) (k : String) (v : PyVal) (k2 : String) :
    dictGet (dictSet d k v) k2 = if k2 = k then some v else dictGet d k2 := by
  induction d with
  | nil =>
    by_cases h : k2 = k
    · subst h; simp [dictSet, dictGet]
    · have hb : (k == k2) = false := by simp [Ne.symm h]
      simp [dictSet, dictGet, h, hb]
  | cons kv rest ih =>
    by_cases hkv : kv.1 = k
    · subst hkv
      by_cases h2 : k2 = kv.1
      · subst h2; simp [dictSet, dictGet]
      · have hb : (kv.1 == k2) = false := by simp [Ne.symm h2]
        simp [dictSet, dictGet, h2, hb]
    · have hb : (kv.1 == k) = false := by simp [hkv]
      by_cases h3 : kv.1 = k2
      · have hb2 : (kv.1 == k2) = true := by simp [h3]
        have h4 : ¬ k2 = k := fun hh => hkv (h3.trans hh)
        simp [dictSet, dictGet, hb, hb2, h4]
      · have hb2 : (kv.1 == k2) = false := by simp [h3]
        simp [dictSet, dictGet, hb, hb2, ih]

theorem dictGet_dictAppend (d : Dict) (k v : String) (k2 : String) :
    dictGet (dictAppend d k v) k2 =
      if k2 = k then (dictGet d k).map (fun pv => pyListAppend pv v) else dictGet d k2 := by
  induction d with
  | nil =>
    by_cases h : k2 = k
    · subst h; simp [dictAppend, dictGet]
    · simp [dictAppend, dictGet, h]
  | cons kv rest ih =>
    by_cases hkv : kv.1 = k
    · subst hkv
      by_cases h2 : k2 = kv.1
      · subst h2; simp [dictAppend, dictGet]
      · have hb : (kv.1 == k2) = false := by simp [Ne.symm h2]
        simp [dictAppend, dictGet, h2, hb]
    · have hb : (kv.1 == k) = false := by simp [hkv]
      by_cases h3 : kv.1 = k2
      · have hb2 : (kv.1 == k2) = true := by simp [h3]
        have h4 : ¬ k2 = k := fun hh => hkv (h3.trans hh)
        simp [dictAppend, dictGet, hb, hb2, h4]
      · have hb2 : (kv.1 == k2) = false := by simp [h3]
        simp [dictAppend, dictGet, hb, hb2, ih]

theorem parsePairs_spec (raw : List String) :
    ∀ (l : List (String × String)) (d : Dict) (xs ys : List String),
      decodedPairsOf raw = some l →
      dictGet d "column_display_names" = some (.l xs) →
      dictGet d "cols" = some (.l ys) →
      ∃ d2, parsePairs raw d = .ok d2
        ∧ dictGet d2 "column_display_names" = some (.l (xs ++ valsFor l "column_display_names"))
        ∧ dictGet d2 "cols" = some (.l (ys ++ valsFor l "cols"))
        ∧ ∀ k, k ≠ "column_display_names" → k ≠ "cols" →
            (valsFor l k = [] → dictGet d2 k = dictGet d k)
            ∧ ∀ v, (valsFor l k).getLast? = some v → dictGet d2 k = some (PyVal.s v) := by
  induction raw with
  | nil =>
    intro l d xs ys hl h1 h2
    simp only [decodedPairsOf] at hl
    injection hl with hl
    subst hl
    refine ⟨d, rfl, by simp [valsFor, h1], by simp [valsFor, h2],
      fun k _ _ => ⟨fun _ => rfl, ?_⟩⟩
    intro v hv
    simp [valsFor] at hv
  | cons p rest ih =>
    intro l d xs ys hl h1 h2
    simp only [decodedPairsOf] at hl
    rcases hsp : splitPair p with _ | ⟨k0, v0⟩ <;> rw [hsp] at hl
    · simp at hl
    · rcases hdr : decodedPairsOf rest with _ | l2 <;> rw [hdr] at hl
      · simp at hl
      · dsimp only at hl
        injection hl with hl
        subst hl
        by_cases hA : k0 = "column_display_names"
        · subst hA
          obtain ⟨d2, hok, hc1, hc2, hother⟩ := ih l2
            (dictAppend d "column_display_names" v0) (xs ++ [v0]) ys hdr
            (by rw [dictGet_dictAppend, if_pos rfl, h1]; rfl)
            (by rw [dictGet_dictAppend, if_neg (by decide)]; exact h2)
          refine ⟨d2, ?_, ?_, ?_, ?_⟩
          · simp only [parsePairs, hsp]
            rw [if_pos (by decide)]
            exact hok
          · rw [hc1]
            have hv : valsFor (("column_display_names", v0) :: l2) "column_display_names"
                = v0 :: valsFor l2 "column_display_names" := by simp [valsFor]
            rw [hv]
            simp
          · rw [hc2]
            have hv : valsFor (("column_display_names", v0) :: l2) "cols"
                = valsFor l2 "cols" := by simp [valsFor]
            rw [hv]
          · intro k hk1 hk2
            have hv : valsFor (("column_display_names", v0) :: l2) k = valsFor l2 k := by
              simp [valsFor, Ne.symm hk1]
            obtain ⟨hempty, hsome⟩ := hother k hk1 hk2
            constructor
            · intro hnil
              rw [hv] at hnil
              rw [hempty hnil, dictGet_dictAppend, if_neg hk1]
            · intro v hvv
              rw [hv] at hvv
              exact hsome v hvv
        · by_cases hB : k0 = "cols"
          · subst hB
            obtain ⟨d2, hok, hc1, hc2, hother⟩ := ih l2
              (dictAppend d "cols" v0) xs (ys ++ [v0]) hdr
              (by rw [dictGet_dictAppend, if_neg (by decide)]; exact h1)
              (by rw [dictGet_dictAppend, if_pos rfl, h2]; rfl)
            refine ⟨d2, ?_, ?_, ?_, ?_⟩
            · simp only [parsePairs, hsp]
              rw [if_pos (by decide)]
              exact hok
            · rw [hc1]
              have hv : valsFor (("cols", v0) :: l2) "column_display_names"
                  = valsFor l2 "column_display_names" := by simp [valsFor]
              rw [hv]
            · rw [hc2]
              have hv : valsFor (("cols", v0) :: l2) "cols" = v0 :: valsFor l2 "cols" := by
                simp [valsFor]
              rw [hv]
              simp
            · intro k hk1 hk2
              have hv : valsFor (("cols", v0) :: l2) k = valsFor l2 k := by
                simp [valsFor, Ne.symm hk2]
              obtain ⟨hempty, hsome⟩ := hother k hk1 hk2
              constructor
              · intro hnil
                rw [hv] at hnil
                rw [hempty hnil, dictGet_dictAppend, if_neg hk2]
              · intro v hvv
                rw [hv] at hvv
                exact hsome v hvv
          · obtain ⟨d2, hok, hc1, hc2, hother⟩ := ih l2
              (dictSet d k0 (PyVal.s v0)) xs ys hdr
              (by rw [dictGet_dictSet, if_neg (fun hh => hA hh.symm)]; exact h1)
              (by rw [dictGet_dictSet, if_neg (fun hh => hB hh.symm)]; exact h2)
            refine ⟨d2, ?_, ?_, ?_, ?_⟩
            · simp only [parsePairs, hsp]
              rw [if_neg (by simp [hA, hB])]
              exact hok
            · rw [hc1]
              have hv : valsFor ((k0, v0) :: l2) "column_display_names"
                  = valsFor l2 "column_display_names" := by simp [valsFor, hA]
              rw [hv]
            · rw [hc2]
              have hv : valsFor ((k0, v0) :: l2) "cols" = valsFor l2 "cols" := by
                simp [valsFor, hB]
              rw [hv]
            · intro k hk1 hk2
              obtain ⟨hempty, hsome⟩ := hother k hk1 hk2
              by_cases hk0 : k = k0
              · subst hk0
                have hv : valsFor ((k, v0) :: l2) k = v0 :: valsFor l2 k := by
                  simp [valsFor]
                constructor
                · intro hnil
                  rw [hv] at hnil
                  simp at hnil
                · intro v hvv
                  rw [hv] at hvv
                  rcases hvl : valsFor l2 k with _ | ⟨w, ws⟩
                  · rw [hvl] at hvv
                    simp at hvv
                    subst hvv
                    rw [hempty hvl, dictGet_dictSet, if_pos rfl]
                  · rw [hvl, List.getLast?_cons_cons] at hvv
                    exact hsome v (by rw [hvl]; exact hvv)
              · have hv : valsFor ((k0, v0) :: l2) k = valsFor l2 k := by
                  simp [valsFor, Ne.symm hk0]
                obtain ⟨hempty2, hsome2⟩ := hother k hk1 hk2
                constructor
                · intro hnil
                  rw [hv] at hnil
                  rw [hempty hnil, dictGet_dictSet, if_neg hk0]
                · intro v hvv
                  rw [hv] at hvv
                  exact hsome v hvv

/-! ## Statement-update lemma (used for C2) -/

theorem updateStatements_cond (cond : Condition) :
    ∀ (stmts out : List Statement), updateStatements cond stmts = .ok out →
      ∀ s ∈ out, s.action = some "sts:AssumeRole" → s.condition = some cond := by
  intro stmts
  induction stmts with
  | nil =>
    intro out h
    injection h with h
    subst h
    simp
  | cons s rest ih =>
    intro out h
    rw [updateStatements] at h
    rcases ha : s.action with _ | a <;> rw [ha] at h
    · simp at h
    · rcases hr : updateStatements cond rest with _ | out2 <;> rw [hr] at h
      · simp at h
      · dsimp only at h
        injection h with h
        subst h
        intro s2 hs2 hact
        rcases List.mem_cons.mp hs2 with h2 | h2
        · subst h2
          by_cases hAss : a = "sts:AssumeRole"
          · rw [if_pos hAss]
          · rw [if_neg hAss] at hact
            rw [ha] at hact
            injection hact with hact
            exact absurd hact hAss
        · exact ih out2 hr s2 h2 hact

/-! ## Claim theorems -/

/-- C1 (code_bug evaluation): in a run where farm and queue creation succeed
but all 3 queue-availability polling attempts fail, `create_farm_and_fleet`
raises (KeyError on the absent `progress["queue_id"]`) instead of invoking
`clean_up` and returning an error dictionary; its trace ends with the three
polls and contains no deletion. -/
theorem c1_queue_poll_exhaustion_raises :
    create_farm_and_fleet envQueueUnavailable (some "us-west-2:studio") (some "Farm")
      (some "Queue") (some "Fleet") FLEET_CONFIGURATION_PATH
      = (.raised "KeyError: queue_id",
         [Event.getCallerIdentity, Event.createFarm, Event.createQueue,
          Event.getQueue, Event.getQueue, Event.getQueue]) := by
  rfl

/-- C2: whenever the statement-update loop succeeds on a non-empty statement
list, every statement whose Action is `sts:AssumeRole` carries exactly the
Condition `{StringEquals: {aws:SourceAccount: account}, ArnEquals:
{aws:SourceArn: arn:aws:deadline:{region}:{account}:farm/{farm_id}}}` with
the region taken from the studio ID prefix: a deterministic function of the
farm ID and account ID. -/
theorem c2_trust_policy_condition (account sid farm_id : String)
    (stmts out : List Statement) (hne : stmts ≠ [])
    (hok : updateStatements
      (mkAssumeRoleCondition account ((pySplit sid ':').headD "") farm_id) stmts = .ok out) :
    ∀ s ∈ out, s.action = some "sts:AssumeRole" →
      s.condition = some
        { sourceAccount := account
          sourceArn := "arn:aws:deadline:" ++ ((pySplit sid ':').headD "") ++ ":"
            ++ account ++ ":farm/" ++ farm_id } :=
  updateStatements_cond _ stmts out hok

/-- Witness for C2 at a concrete trust-policy document of two statements. -/
theorem c2_witness :
    updateStatements (mkAssumeRoleCondition "123456789012"
        ((pySplit "us-west-2:studio" ':').headD "") "farm-1")
        [{ action := some "sts:AssumeRole" }, { action := some "s3:GetObject" }]
      = .ok [{ action := some "sts:AssumeRole",
               condition := some (mkAssumeRoleCondition "123456789012" "us-west-2" "farm-1") },
             { action := some "s3:GetObject" }]
    ∧ (Statement.mk (some "sts:AssumeRole")
        (some (mkAssumeRoleCondition "123456789012" "us-west-2" "farm-1"))).condition
      = some { sourceAccount := "123456789012"
               sourceArn := "arn:aws:deadline:" ++ ((pySplit "us-west-2:studio" ':').headD "")
                 ++ ":" ++ "123456789012" ++ ":farm/" ++ "farm-1" } :=
  ⟨rfl,
   c2_trust_policy_condition "123456789012" "us-west-2:studio" "farm-1"
     [{ action := some "sts:AssumeRole" }, { action := some "s3:GetObject" }]
     [{ action := some "sts:AssumeRole",
        condition := some (mkAssumeRoleCondition "123456789012" "us-west-2" "farm-1") },
      { action := some "s3:GetObject" }]
     (by simp) rfl
     { action := some "sts:AssumeRole",
       condition := some (mkAssumeRoleCondition "123456789012" "us-west-2" "farm-1") }
     (by simp) rfl⟩

/-- C5: when any of the farm, queue or fleet names is missing, the workflow
returns a structured error and performs no remote call at all (the trace is
empty, so not even caller-identity resolution happens). -/
theorem c5_missing_name_no_remote_call (e : Env) (studio nf nq nl : Option String)
    (path : String) (h : nf = none ∨ nq = none ∨ nl = none) :
    (∃ msg, (create_farm_and_fleet e studio nf nq nl path).1 = .error msg)
    ∧ (create_farm_and_fleet e studio nf nq nl path).2 = [] := by
  rcases h with h | h | h
  · subst h
    exact ⟨⟨"No farm name specified", rfl⟩, rfl⟩
  · subst h
    cases nf with
    | none => exact ⟨⟨"No farm name specified", rfl⟩, rfl⟩
    | some nf0 => exact ⟨⟨"No queue name specified", rfl⟩, rfl⟩
  · subst h
    cases nf with
    | none => exact ⟨⟨"No farm name specified", rfl⟩, rfl⟩
    | some nf0 =>
      cases nq with
      | none => exact ⟨⟨"No queue name specified", rfl⟩, rfl⟩
      | some nq0 => exact ⟨⟨"No fleet name specified", rfl⟩, rfl⟩

/-- Witness for C5: a run with a missing farm name against the all-success
oracle returns an error dict with an empty remote-call trace. -/
theorem c5_witness :
    (∃ msg, (create_farm_and_fleet envOk (some "us-west-2:studio") none (some "Q")
      (some "L") "p").1 = .error msg)
    ∧ (create_farm_and_fleet envOk (some "us-west-2:studio") none (some "Q")
      (some "L") "p").2 = [] :=
  c5_missing_name_no_remote_call envOk (some "us-west-2:studio") none (some "Q") (some "L")
    "p" (Or.inl rfl)

/-- C4: when farm creation succeeds and queue creation fails (raises or
returns nothing), the run returns the queue-creation error and its clean-up
issues exactly one deletion: the farm. -/
theorem c4_queue_failure_deletes_farm_only (e : Env) (studio : Option String)
    (nf nq nl acct fid path : String)
    (hci : e.get_caller_identity = .returned (some { account := some acct }))
    (hcf : e.create_farm = .returned (some fid))
    (hcq : e.create_queue = .raised ∨ e.create_queue = .returned none) :
    (create_farm_and_fleet e studio (some nf) (some nq) (some nl) path).1
      = .error "Queue creation failed"
    ∧ ((create_farm_and_fleet e studio (some nf) (some nq) (some nl) path).2).filter
        isDeleteEvent = [Event.deleteFarm] := by
  rcases hcq with hcq | hcq <;>
    simp [create_farm_and_fleet, queueStage, clean_up_snd, clean_up_events,
      hci, hcf, hcq, isDeleteEvent]

/-- Witness for C4 at a concrete oracle whose `create_queue` raises. -/
theorem c4_witness :
    (create_farm_and_fleet envQueueFails (some "us-west-2:studio") (some "F") (some "Q")
      (some "L") "p").1 = .error "Queue creation failed"
    ∧ ((create_farm_and_fleet envQueueFails (some "us-west-2:studio") (some "F") (some "Q")
      (some "L") "p").2).filter isDeleteEvent = [Event.deleteFarm] :=
  c4_queue_failure_deletes_farm_only envQueueFails (some "us-west-2:studio") "F" "Q" "L"
    "123456789012" "farm-1" "p" rfl rfl (Or.inl rfl)

/-- C3: in any run that reaches fleet creation with a newly created role and
whose fleet-creation retry loop fails on every attempt, the run errors and
its clean-up attempts exactly the four deletions — inline role policy, role,
queue, farm — in that order, whatever the outcomes of the deletions are (the
delete outcomes in the oracle are unconstrained, so one deletion failing
never suppresses the later ones). -/
theorem c3_fleet_failure_cleanup_order (e : Env)
    (sid nf nq nl acct fid qid q rl wp cfg path : String)
    (doc : PolicyDoc) (s0 : Statement) (srest out : List Statement)
    (qevs fevs : List Event)
    (hci : e.get_caller_identity = .returned (some { account := some acct }))
    (hcf : e.create_farm = .returned (some fid))
    (hcq : e.create_queue = .returned (some qid))
    (hpoll : queuePollLoop e 0 3 = (some q, qevs))
    (hdoc : e.fleet_role_doc = some doc)
    (hstmt : doc.statement = some (s0 :: srest))
    (hupd : updateStatements (mkAssumeRoleCondition acct ((pySplit sid ':').headD "") fid)
      (s0 :: srest) = .ok out)
    (hrole : lookupRole e.get_role = none)
    (hcr : e.create_role = .returned (some rl))
    (hwp : e.worker_permissions_doc = some wp)
    (hprp : e.put_role_policy = .returned (some true))
    (hcfg : e.fleet_configuration_doc = some cfg)
    (hfl : fleetLoop e 0 3 = (none, fevs)) :
    (∃ msg, (create_farm_and_fleet e (some sid) (some nf) (some nq) (some nl) path).1
      = .error msg)
    ∧ ((create_farm_and_fleet e (some sid) (some nf) (some nq) (some nl) path).2).filter
        isDeleteEvent
      = [Event.deleteRolePolicy, Event.deleteRole, Event.deleteQueue, Event.deleteFarm] := by
  have hq2 : qevs.filter isDeleteEvent = [] := by
    have h := queuePollLoop_filter e 3 0
    rw [hpoll] at h
    exact h
  have hf2 : fevs.filter isDeleteEvent = [] := by
    have h := fleetLoop_filter e 3 0
    rw [hfl] at h
    exact h
  constructor
  · refine ⟨"Fleet creation failed after 3 retries. Please check fleet role: "
      ++ ("arn:aws:iam::" ++ acct ++ ":role/" ++ ((pyReplaceChar nf ' ' '_') ++ "FleetRole")), ?_⟩
    simp only [create_farm_and_fleet, queueStage, policyDocStage, roleStage, rolePolicyStage,
      fleetAndAssociate, hci, hcf, hcq, hpoll, hdoc, hstmt, hupd, hrole, hcr, hwp, hprp,
      hcfg, hfl]
    simp
  · simp only [create_farm_and_fleet, queueStage, policyDocStage, roleStage, rolePolicyStage,
      fleetAndAssociate, clean_up_snd, clean_up_events, hci, hcf, hcq, hpoll, hdoc, hstmt,
      hupd, hrole, hcr, hwp, hprp, hcfg, hfl]
    simp [List.filter_append, hq2, hf2, isDeleteEvent]

/-- Witness for C3 at a concrete oracle whose three `create_fleet` attempts
all fail after a newly created role. -/
theorem c3_witness :
    (∃ msg, (create_farm_and_fleet envFleetFails (some "us-west-2:studio") (some "F")
      (some "Q") (some "L") "p").1 = .error msg)
    ∧ ((create_farm_and_fleet envFleetFails (some "us-west-2:studio") (some "F") (some "Q")
      (some "L") "p").2).filter isDeleteEvent
      = [Event.deleteRolePolicy, Event.deleteRole, Event.deleteQueue, Event.deleteFarm] :=
  c3_fleet_failure_cleanup_order envFleetFails "us-west-2:studio" "F" "Q" "L" "123456789012"
    "farm-1" "queue-1" "queue-1" "role-1" "wp" "cfg" "p"
    { statement := some [{ action := some "sts:AssumeRole" }] }
    { action := some "sts:AssumeRole" } []
    [{ action := some "sts:AssumeRole",
       condition := some (mkAssumeRoleCondition "123456789012"
         ((pySplit "us-west-2:studio" ':').headD "") "farm-1") }]
    [Event.getQueue]
    [Event.sleep ROLE_CHANGE_WAIT_SECONDS, Event.createFleet,
     Event.sleep ROLE_CHANGE_WAIT_SECONDS, Event.createFleet,
     Event.sleep ROLE_CHANGE_WAIT_SECONDS, Event.createFleet]
    rfl rfl rfl rfl rfl rfl rfl rfl rfl rfl rfl rfl rfl

/-- C6: in any run that reaches the role step and finds that a role of the
derived name already exists, the run never calls `create_role`, proceeds
into the inline-policy stage (the existing role is not an error), does not
record a role name in the rollback record, and no later clean-up ever
deletes the pre-existing role. -/
theorem c6_existing_role_not_recreated (e : Env)
    (sid nf nq nl acct fid qid q r path : String)
    (doc : PolicyDoc) (s0 : Statement) (srest out : List Statement) (qevs : List Event)
    (hci : e.get_caller_identity = .returned (some { account := some acct }))
    (hcf : e.create_farm = .returned (some fid))
    (hcq : e.create_queue = .returned (some qid))
    (hpoll : queuePollLoop e 0 3 = (some q, qevs))
    (hdoc : e.fleet_role_doc = some doc)
    (hstmt : doc.statement = some (s0 :: srest))
    (hupd : updateStatements (mkAssumeRoleCondition acct ((pySplit sid ':').headD "") fid)
      (s0 :: srest) = .ok out)
    (hrole : lookupRole e.get_role = some r) :
    Event.createRole ∉ (create_farm_and_fleet e (some sid) (some nf) (some nq) (some nl) path).2
    ∧ Event.deleteRole ∉ (create_farm_and_fleet e (some sid) (some nf) (some nq) (some nl) path).2
    ∧ (∀ prog, (create_farm_and_fleet e (some sid) (some nf) (some nq) (some nl) path).1
        = .ok prog → prog.role_name = none)
    ∧ (create_farm_and_fleet e (some sid) (some nf) (some nq) (some nl) path).1
      = (rolePolicyStage e { farm_id := some fid, queue_id := some q }
          ((pyReplaceChar nf ' ' '_') ++ "FleetRole") nl fid qid
          ("arn:aws:iam::" ++ acct ++ ":role/" ++ ((pyReplaceChar nf ' ' '_') ++ "FleetRole"))
          path).1 := by
  have hqm : ∀ ev ∈ qevs, ev = Event.getQueue := by
    intro ev hev
    refine queuePollLoop_mem e 3 0 ev ?_
    rw [hpoll]
    exact hev
  simp only [create_farm_and_fleet, queueStage, policyDocStage, roleStage,
    hci, hcf, hcq, hpoll, hdoc, hstmt, hupd, hrole]
  refine ⟨?_, ?_, ?_, trivial⟩
  · intro hmem
    simp only [List.mem_cons, List.mem_append] at hmem
    rcases hmem with h | h | h | h | h | h
    · simp at h
    · simp at h
    · simp at h
    · simpa using hqm _ h
    · simp at h
    · exact rolePolicyStage_no_createRole e _ _ nl fid qid _ path h
  · intro hmem
    simp only [List.mem_cons, List.mem_append] at hmem
    rcases hmem with h | h | h | h | h | h
    · simp at h
    · simp at h
    · simp at h
    · simpa using hqm _ h
    · simp at h
    · exact rolePolicyStage_no_deleteRole e _ _ nl fid qid _ path rfl h
  · intro prog hok
    have := rolePolicyStage_fst_ok e _ _ nl fid qid _ path prog hok
    simpa using this

/-- Witness for C6 at a concrete oracle reporting an existing role. -/
theorem c6_witness :
    Event.createRole ∉ (create_farm_and_fleet envRoleExists (some "us-west-2:studio")
      (some "F") (some "Q") (some "L") "p").2
    ∧ Event.deleteRole ∉ (create_farm_and_fleet envRoleExists (some "us-west-2:studio")
      (some "F") (some "Q") (some "L") "p").2
    ∧ (∀ prog, (create_farm_and_fleet envRoleExists (some "us-west-2:studio") (some "F")
        (some "Q") (some "L") "p").1 = .ok prog → prog.role_name = none)
    ∧ (create_farm_and_fleet envRoleExists (some "us-west-2:studio") (some "F") (some "Q")
        (some "L") "p").1
      = (rolePolicyStage envRoleExists { farm_id := some "farm-1", queue_id := some "queue-1" }
          ((pyReplaceChar "F" ' ' '_') ++ "FleetRole") "L" "farm-1" "queue-1"
          ("arn:aws:iam::" ++ "123456789012" ++ ":role/"
            ++ ((pyReplaceChar "F" ' ' '_') ++ "FleetRole")) "p").1 :=
  c6_existing_role_not_recreated envRoleExists "us-west-2:studio" "F" "Q" "L" "123456789012"
    "farm-1" "queue-1" "queue-1" "existing-role" "p"
    { statement := some [{ action := some "sts:AssumeRole" }] }
    { action := some "sts:AssumeRole" } []
    [{ action := some "sts:AssumeRole",
       condition := some (mkAssumeRoleCondition "123456789012"
         ((pySplit "us-west-2:studio" ':').headD "") "farm-1") }]
    [Event.getQueue]
    rfl rfl rfl rfl rfl rfl rfl rfl

/-- C7: the fleet-creation retry loop performs at most 3 attempts; its event
trace is exactly one fixed `ROLE_CHANGE_WAIT_SECONDS` (6 s) sleep before
every attempt, the first included; it stops at the first attempt returning a
fleet ID; it always terminates with such a trace; and when no attempt yields
a fleet ID the surrounding stage cleans up and returns an error. -/
theorem c7_fleet_retry_loop (e : Env) :
    (((fleetLoop e 0 3).2).filter isCreateFleetEvent).length ≤ 3
    ∧ (fleetLoop e 0 3).2
      = attemptBlocks ((((fleetLoop e 0 3).2).filter isCreateFleetEvent).length)
    ∧ (∀ i fid, i < 3 → (∀ j, j < i → fleetAttemptId e j = none) →
        fleetAttemptId e i = some fid →
        fleetLoop e 0 3 = (some fid, attemptBlocks (i + 1)))
    ∧ ((∀ i, i < 3 → fleetAttemptId e i = none) →
        ∀ (p : Progress) (nl fid qid arn path cfg : String),
          e.fleet_configuration_doc = some cfg →
          fleetAndAssociate e p nl fid qid arn path
            = (.error ("Fleet creation failed after 3 retries. Please check fleet role: "
                ++ arn),
               attemptBlocks 3 ++ clean_up_events p)) := by
  obtain ⟨k, hk, hev, _⟩ := fleetLoop_shape e 3 0
  refine ⟨?_, ?_, ?_, ?_⟩
  · rw [hev, attemptBlocks_count]
    exact hk
  · rw [hev, attemptBlocks_count]
  · intro i fid hi hfail hsucc
    have h0 : ∀ j, j < i → fleetAttemptId e (0 + j) = none := by
      intro j hj
      rw [Nat.zero_add]
      exact hfail j hj
    have := fleetLoop_stops e i 3 0 fid hi h0 (by rw [Nat.zero_add]; exact hsucc)
    exact this
  · intro hall p nl fid qid arn path cfg hcfg
    have hloop : fleetLoop e 0 3 = (none, attemptBlocks 3) :=
      fleetLoop_all_fail e 3 0 (fun i hi => by rw [Nat.zero_add]; exact hall i hi)
    simp only [fleetAndAssociate, hcfg, hloop, clean_up_snd]

/-- Witness for C7: against the oracle whose three attempts all fail, the
fleet stage cleans up the recorded farm and reports the retry-exhaustion
error after exactly three sleep-prefixed attempts. -/
theorem c7_witness :
    fleetAndAssociate envFleetFails { farm_id := some "farm-1" } "L" "farm-1" "queue-1"
      "arn-x" "p"
      = (.error ("Fleet creation failed after 3 retries. Please check fleet role: "
          ++ "arn-x"),
         attemptBlocks 3 ++ clean_up_events { farm_id := some "farm-1" }) :=
  (c7_fleet_retry_loop envFleetFails).2.2.2 (by decide)
    { farm_id := some "farm-1" } "L" "farm-1" "queue-1" "arn-x" "p" "cfg" rfl

/-- C8: the GET query parser raises on every URL without a `?`; on a pair
list whose pairs all contain `=`, it splits each pair on the first `=`,
URL-decodes both sides, maps each other key to its decoded value (the last
occurrence), and accumulates repeated `column_display_names`/`cols` keys
into lists in occurrence order instead of overwriting. -/
theorem c8_query_parsing (url : String) (raw : List String)
    (l : List (String × String))
    (hnoq : pyContains url '?' = false)
    (hdec : decodedPairsOf raw = some l) :
    (∃ msg, parse_url url = .error msg)
    ∧ ∃ d2, parsePairs raw initParams = .ok d2
        ∧ dictGet d2 "column_display_names" = some (.l (valsFor l "column_display_names"))
        ∧ dictGet d2 "cols" = some (.l (valsFor l "cols"))
        ∧ ∀ k, k ≠ "column_display_names" → k ≠ "cols" →
            dictGet d2 k = ((valsFor l k).getLast?).map PyVal.s := by
  constructor
  · exact ⟨"ValueError: No parameters given", by rw [parse_url, hnoq, if_pos rfl]⟩
  · obtain ⟨d2, hok, hc1, hc2, hother⟩ := parsePairs_spec raw l initParams [] [] hdec rfl rfl
    refine ⟨d2, hok, by simpa using hc1, by simpa using hc2, ?_⟩
    intro k hk1 hk2
    obtain ⟨hempty, hsome⟩ := hother k hk1 hk2
    rcases hl : (valsFor l k).getLast? with _ | v
    · have hnil : valsFor l k = [] := List.getLast?_eq_none_iff.mp hl
      rw [hempty hnil]
      have hbase : dictGet initParams k = none := by
        simp [initParams, dictGet, Ne.symm hk1, Ne.symm hk2]
      rw [hbase]
      rfl
    · rw [hsome v hl]
      rfl

/-- Witness for C8: a URL without `?` raises, and the concrete raw pair list
`a=b, cols=x%20y, cols=z, column_display_names=N, a=c` parses with the two
list keys accumulated in order and the repeated plain key overwritten. -/
theorem c8_witness :
    (∃ msg, parse_url "https://sg.example.com/farm_creator" = .error msg)
    ∧ ∃ d2, parsePairs ["a=b", "cols=x%20y", "cols=z", "column_display_names=N", "a=c"]
        initParams = .ok d2
        ∧ dictGet d2 "column_display_names"
          = some (.l (valsFor [("a", "b"), ("cols", "x y"), ("cols", "z"),
              ("column_display_names", "N"), ("a", "c")] "column_display_names"))
        ∧ dictGet d2 "cols"
          = some (.l (valsFor [("a", "b"), ("cols", "x y"), ("cols", "z"),
              ("column_display_names", "N"), ("a", "c")] "cols"))
        ∧ ∀ k, k ≠ "column_display_names" → k ≠ "cols" →
            dictGet d2 k = ((valsFor [("a", "b"), ("cols", "x y"), ("cols", "z"),
              ("column_display_names", "N"), ("a", "c")] k).getLast?).map PyVal.s :=
  c8_query_parsing "https://sg.example.com/farm_creator"
    ["a=b", "cols=x%20y", "cols=z", "column_display_names=N", "a=c"]
    [("a", "b"), ("cols", "x y"), ("cols", "z"), ("column_display_names", "N"), ("a", "c")]
    rfl rfl

/-- C9: a webhook GET request whose URL query is
`project_name=Foo&server_hostname=studio.example.com` makes the handler
derive farm name `Foo`, queue name `Foo Queue` and fleet name `Foo Fleet`,
and invoke the provisioning workflow with exactly those three names. -/
theorem c9_get_request_names (settings : Settings) (e : Env) :
    (farm_creator settings e .GET
      "https://shotgrid.example.com/farm_creator?project_name=Foo&server_hostname=studio.example.com"
      []).2
    = some { studio_id := some settings.studio_id
             name_farm := some "Foo"
             name_queue := some "Foo Queue"
             name_fleet := some "Foo Fleet"
             fleet_configuration_path := FLEET_CONFIGURATION_PATH
             max_worker_count := settings.max_worker_count } := by
  rfl

/-- C10: whenever the parsed parameters are non-empty but carry no
`project_name` key, the handler returns the fixed instructional error and
never invokes the provisioning workflow. -/
theorem c10_missing_project_name (settings : Settings) (e : Env) (method : Method)
    (url : String) (form : List (String × String)) (params : Dict)
    (hp : paramsOf method url form = .ok params)
    (hne : params.isEmpty = false)
    (hmiss : dictContains params "project_name" = false) :
    farm_creator settings e method url form
      = (.body "Error: Please run this Action Menu Item from the Project Actions menu of a Project page.",
         none) := by
  simp [farm_creator, hp, hne, hmiss]

/-- Witness for C10 at a concrete POST request whose form lacks
`project_name`. -/
theorem c10_witness :
    farm_creator { studio_id := "us-west-2:studio", max_worker_count := 1 } envOk .POST
      "https://sg.example.com/farm_creator" [("entity_type", "Shot")]
      = (.body "Error: Please run this Action Menu Item from the Project Actions menu of a Project page.",
         none) :=
  c10_missing_project_name { studio_id := "us-west-2:studio", max_worker_count := 1 } envOk
    .POST "https://sg.example.com/farm_creator" [("entity_type", "Shot")]
    [("entity_type", PyVal.s "Shot")] rfl rfl rfl
